import Mathlib

/-
Shallow embedding of soreau/wl-backdrop (src/backdrop.py), a small Wayland
client drawing a clock/weather overlay.  Side-effecting protocol and system
calls are modelled as an explicit trace of events (`Ev`); the mutable
`backdrop` dictionary and the module-level globals `window_width` /
`window_height` are modelled as one explicit record (`State`).  Network and
filesystem effects inside the weather-refresh handler are abstracted into a
`WeatherEnv` record of oracle results, so the handler is a pure function of
the environment and the state.
-/

namespace WlBackdrop

/-- Observable effects emitted by the program, in program order.  Each
constructor corresponds to one concrete call in src/backdrop.py: protocol
requests (attach/damage/commit/flush/ack_configure/...), shared-memory
management (AnonymousFile/mmap/create_pool/create_buffer/destroy), process
and descriptor management (eventfd/epoll/os.read/os.write/exit), and prints. -/
inductive Ev where
  | printMsg (msg : String)
  | exitProcess (code : Int)
  | connectDisplay
  | disconnect
  | roundtrip
  | createSurface
  | getXdgSurface
  | getToplevel
  | setTitle (t : String)
  | setAppId (a : String)
  | openAnonFile (size : Int)
  | mmapFile (size : Int)
  | createPool (size : Int)
  | destroyBuffer (id : Nat)
  | createBuf (id : Nat) (w h stride : Int)
  | destroyPool
  | closeAnonFile
  | writeShm (size : Int)
  | attach (id : Nat)
  | damage (w h : Int)
  | commit
  | flush
  | ackConfigure (serial : Nat)
  | httpGet (url : String)
  | closeFd (name : String)
  | readFd (name : String)
  | writeFd (name : String)
  | clearRunning
  | joinThread
  | registerSignalHandler
  | epollCreate
  | createEventfd (name : String)
  | epollRegister (name : String)
  | setRunning
  | startThread
  | enterLoop
  deriving DecidableEq, Repr

/-- The `backdrop` dictionary together with the module globals
`window_width`/`window_height` (initially 1000 and 200).  Wayland buffer
objects are identified by a generation counter `next_buffer_id`, so distinct
Python buffer objects get distinct ids; `buffer1 = none` models the key
"buffer1" being absent from the dictionary. -/
structure State where
  window_width : Int := 1000
  window_height : Int := 200
  wait_for_configure : Bool := false
  buffer1 : Option Nat := none
  next_buffer_id : Nat := 1
  shm_size : Int := 0
  cairo_w : Int := 0
  cairo_h : Int := 0
  compositor_enabled : Bool := false
  xdg_enabled : Bool := false
  shm_enabled : Bool := false
  weather_api_key : Option String := none
  weather_location_key : Option String := none
  weather_metric_units : Bool := false
  weather_temperature : String := ""
  weather_icon : String := ""
  weather_update_interval : Int := 15
  running : Bool := false
  deriving DecidableEq, Repr

/-- Parsed command-line arguments (argparse result).  `interval` is the
value of `int(args.interval)` when `--interval` was supplied with an integer
literal, `none` when the flag was absent. -/
structure Args where
  location : Option String := none
  apikey : Option String := none
  interval : Option Int := none
  metric : Bool := false
  deriving DecidableEq, Repr

/-- `create_buffer(backdrop, width, height)` (src/backdrop.py lines 56-70):
open an anonymous file of width*height*4 bytes, mmap it, wrap it in a pool,
destroy the previously held buffer if the "buffer1" key exists, create the
new buffer (stride width*4), destroy the pool, close the file, and record
the new mapping and cairo surface.  The dead store `backdrop["buffer_id"]=1`
is omitted (read nowhere). -/
def create_buffer (b : State) (width height : Int) : State × List Ev :=
  let size := width * height * 4
  let destroyEvs : List Ev :=
    match b.buffer1 with
    | some old => [Ev.destroyBuffer old]
    | none => []
  let newId := b.next_buffer_id
  ({ b with buffer1 := some newId, next_buffer_id := newId + 1,
            shm_size := size, cairo_w := width, cairo_h := height },
   [Ev.openAnonFile size, Ev.mmapFile size, Ev.createPool size]
     ++ destroyEvs
     ++ [Ev.createBuf newId width height (width * 4), Ev.destroyPool, Ev.closeAnonFile])

/-- `redraw(backdrop)` (lines 106-156).  The cairo drawing itself is the
opaque renderer; its observable tail is: write the rendered bytes into the
mapped region, attach `backdrop["buffer1"]`, damage the full window
(globals `window_width` x `window_height`), commit, flush.  When invoked in
the source a buffer always exists, so `getD 0` is never the default. -/
def redraw (b : State) : State × List Ev :=
  (b, [Ev.writeShm b.shm_size,
       Ev.attach (b.buffer1.getD 0),
       Ev.damage b.window_width b.window_height,
       Ev.commit, Ev.flush])

/-- `handle_xdg_surface_configure(xdg_surface, serial)` (lines 72-77):
clear `wait_for_configure`, acknowledge with the received serial, commit the
surface, flush the connection. -/
def handle_xdg_surface_configure (b : State) (serial : Nat) : State × List Ev :=
  ({ b with wait_for_configure := false },
   [Ev.ackConfigure serial, Ev.commit, Ev.flush])

/-- `handle_xdg_toplevel_configure(xdg_toplevel, width, height, flags)`
(lines 79-88).  Ignored while `wait_for_configure`; otherwise acted on only
when width and height are both non-zero AND both differ from the current
globals (the source uses `and` between the two inequality tests). -/
def handle_xdg_toplevel_configure (b : State) (width height : Int) : State × List Ev :=
  if b.wait_for_configure then (b, [])
  else if width ≠ 0 ∧ height ≠ 0 ∧ b.window_width ≠ width ∧ b.window_height ≠ height then
    let b1 : State := { b with window_width := width, window_height := height }
    let b2 := (create_buffer b1 width height).1
    ((redraw b2).1,
     (create_buffer b1 width height).2 ++ (redraw b2).2)
  else (b, [])

/-- The teardown effect sequence of `close(backdrop)` (lines 47-54), in
source order: disconnect the display, close the three eventfds, set
`running = False`, join the ticker thread, `exit(0)`. -/
def teardown_events : List Ev :=
  [Ev.disconnect,
   Ev.closeFd "weather_update_fd",
   Ev.closeFd "time_update_fd",
   Ev.closeFd "close_fd",
   Ev.clearRunning,
   Ev.joinThread,
   Ev.exitProcess 0]

/-- `close(backdrop)` (lines 47-54). -/
def close (b : State) : State × List Ev :=
  ({ b with running := false }, teardown_events)

/-- `handle_xdg_surface_close(xdg_toplevel)` (lines 90-91): delegates to
`close`. -/
def handle_xdg_surface_close (b : State) : State × List Ev :=
  close b

/-- Which file descriptors an event closes.  `Ev.disconnect` closes the
protocol connection descriptor: pywayland `Display.disconnect` wraps
`wl_display_disconnect`, which closes the socket it owns. -/
def fds_closed_by : Ev → List String
  | Ev.disconnect => ["display_fd"]
  | Ev.closeFd n => [n]
  | _ => []

/-- All descriptors a trace closes, in order. -/
def fds_closed (tr : List Ev) : List String :=
  (tr.map fds_closed_by).flatten

/-- `handle_registry_global(wl_registry, id_num, iface_name, version)`
(lines 93-104): record (and bind) each of the three required globals when
advertised; the binding handle is modelled by the boolean flag. -/
def handle_registry_global (b : State) (iface_name : String) : State :=
  if iface_name = "wl_compositor" then { b with compositor_enabled := true }
  else if iface_name = "xdg_wm_base" then { b with xdg_enabled := true }
  else if iface_name = "wl_shm" then { b with shm_enabled := true }
  else b

/-- The notices printed by `backdrop_create` before interval validation
(lines 169-172).  The source wraps nothing here in quotes. -/
def cli_notice_events (args : Args) : List Ev :=
  (if args.apikey = none then
     [Ev.printMsg "Provide OpenWeatherMap APIKEY with -k or --apikey to enable weather updates."]
   else [])
  ++ (if args.location = none then
     [Ev.printMsg "Provide OpenWeatherMap location with -l or --location to localize weather updates."]
   else [])

/-- Continuation of `backdrop_create` after interval validation succeeded
(lines 180-254), parameterised by the list of interface names the registry
advertises during the roundtrip.  The capability-name quotes of the source
messages are elided.  The default-icon download/cache (lines 236-245) is
abstracted to recording the resulting icon path.  The function returns the
state just before the `wait_for_configure` dispatch loop (the loop itself
only dispatches `handle_xdg_surface_configure`). -/
def backdrop_create_rest (args : Args) (globals : List String) (interval : Int)
    (ev0 : List Ev) : Option State × List Ev :=
  let ev1 := ev0 ++ (if args.metric then
      [Ev.printMsg "Enabling metric mode (temperature units in celsius)."] else [])
  let b0 : State :=
    { weather_location_key := args.location, weather_api_key := args.apikey,
      weather_metric_units := args.metric, weather_update_interval := interval }
  let ev2 := ev1 ++ [Ev.connectDisplay, Ev.roundtrip]
  let b1 := globals.foldl handle_registry_global b0
  if !b1.compositor_enabled then
    (none, ev2 ++ [Ev.printMsg "Protocol wl_compositor not advertised by compositor. Cannot continue.",
                   Ev.disconnect, Ev.exitProcess (-1)])
  else if !b1.xdg_enabled then
    (none, ev2 ++ [Ev.printMsg "Protocol xdg_shell not advertised by compositor. Cannot continue.",
                   Ev.disconnect, Ev.exitProcess (-1)])
  else if !b1.shm_enabled then
    (none, ev2 ++ [Ev.printMsg "Protocol wl_shm not advertised by compositor. Cannot continue.",
                   Ev.disconnect, Ev.exitProcess (-1)])
  else
    let ev3 := ev2 ++ [Ev.createSurface, Ev.getXdgSurface, Ev.getToplevel,
                       Ev.setTitle "Backdrop", Ev.setAppId "backdrop",
                       Ev.commit, Ev.flush]
    let b2 := (create_buffer b1 b1.window_width b1.window_height).1
    let evBuf := (create_buffer b1 b1.window_width b1.window_height).2
    let sym := if args.metric then "°C" else "°F"
    let b3 : State :=
      { b2 with weather_temperature := "0" ++ sym,
                weather_icon := "weather-icons/10n.png",
                wait_for_configure := true }
    (some b3, ev3 ++ evBuf ++ [Ev.commit, Ev.flush])

/-- `backdrop_create()` (lines 158-254): CLI notices, interval validation
(exit(-1) when `int(args.interval) < 1`), then connect and proceed. -/
def backdrop_create (args : Args) (globals : List String) : Option State × List Ev :=
  let ev0 := cli_notice_events args
  match args.interval with
  | some i =>
    if i < 1 then
      (none, ev0 ++ [Ev.printMsg "Weather update interval must be greater or equal to 1 minute.",
                     Ev.exitProcess (-1)])
    else backdrop_create_rest args globals i ev0
  | none => backdrop_create_rest args globals 15 ev0

/-- Abstraction of one JSON weather response after `json.loads`:
`main_temp` is `int(weather_data["main"]["temp"])` when both keys are
present (`none` models the KeyError), `weather_icon` is
`weather_data["weather"]["icon"]` when present. -/
structure WeatherJson where
  main_temp : Option Int := none
  weather_icon : Option String := none
  deriving DecidableEq, Repr

/-- Oracle for the effectful steps of `update_weather_info`: the result of
fetching and parsing the weather JSON, whether an icon file is already
cached, and whether the icon download and the PNG load succeed. -/
structure WeatherEnv where
  fetch : Except String WeatherJson
  icon_cached : String → Bool
  icon_download : String → Except String Unit
  load_png : String → Except String Unit

/-- Python `str` of an optional value as used when building the request URL
(`str(None) = "None"`). -/
def opt_str (o : Option String) : String :=
  o.getD "None"

/-- Lines 287-295: derive the icon path from the code, download it if not
cached, and load the PNG; returns the path loaded into the icon surface, or
the first error raised. -/
def icon_step (env : WeatherEnv) (code : String) : Except String String :=
  let path := "weather-icons/" ++ code ++ ".png"
  if env.icon_cached path then
    match env.load_png path with
    | Except.ok _ => Except.ok path
    | Except.error e => Except.error e
  else
    match env.icon_download path with
    | Except.error e => Except.error e
    | Except.ok _ =>
      match env.load_png path with
      | Except.ok _ => Except.ok path
      | Except.error e => Except.error e

/-- `update_weather_info()` (lines 264-300).  Early return when no API key;
location defaulting when no location; then the try-block: the temperature
is assigned BEFORE the icon code is read, so an exception raised by the
icon steps is caught with the temperature already overwritten.  The
timestamp prefix of the progress print is omitted; exception messages keep
only the oracle's error text. -/
def update_weather_info (env : WeatherEnv) (b : State) : State × List Ev :=
  if b.weather_api_key = none then
    (b, [Ev.printMsg "Set OpenWeatherMap api key to enable weather updates."])
  else
    let b1 : State :=
      if b.weather_location_key = none then
        { b with weather_location_key := some "Colorado%20Springs" }
      else b
    let ev1 : List Ev :=
      (if b.weather_location_key = none then
        [Ev.printMsg "Set OpenWeatherMap location to get localized weather updates."]
       else [])
      ++ [Ev.printMsg "Updating weather information.."]
    let units := if b1.weather_metric_units then "metric" else "imperial"
    let ev2 := ev1 ++ [Ev.httpGet ("http://api.openweathermap.org/data/2.5/weather?q="
        ++ opt_str b1.weather_location_key ++ "&units=" ++ units
        ++ "&appid=" ++ opt_str b1.weather_api_key)]
    match env.fetch with
    | Except.error e => (b1, ev2 ++ [Ev.printMsg ("Failed to update weather: " ++ e)])
    | Except.ok wd =>
      match wd.main_temp with
      | none => (b1, ev2 ++ [Ev.printMsg "Failed to update weather: KeyError temp"])
      | some t =>
        let sym := if b1.weather_metric_units then "°C" else "°F"
        let b2 : State := { b1 with weather_temperature := toString t ++ sym }
        match wd.weather_icon with
        | none => (b2, ev2 ++ [Ev.printMsg "Failed to update weather: KeyError icon"])
        | some code =>
          match icon_step env code with
          | Except.error e => (b2, ev2 ++ [Ev.printMsg ("Failed to update weather: " ++ e)])
          | Except.ok path =>
            ({ b2 with weather_icon := path },
             ev2 ++ [Ev.printMsg ("Weather information updated successfully: "
                                   ++ b2.weather_temperature)])

/-- The wake-up sources of the epoll loop in `main()` (lines 328-343): the
display socket (with the return value of `dispatch`), and the three
eventfds. -/
inductive Wake where
  | displayReady (dispatch_result : Int)
  | weatherReady
  | timeReady
  | closeReady
  deriving DecidableEq, Repr

/-- One dispatch of the `main()` event loop body for a ready source
(lines 330-343): fatal dispatch error closes; each eventfd is drained with
`os.read(fd, 8)` and its handler invoked. -/
def main_loop_step (env : WeatherEnv) (b : State) (w : Wake) : State × List Ev :=
  match w with
  | Wake.displayReady r =>
    if r = -1 then close b else (b, [])
  | Wake.weatherReady =>
    ((update_weather_info env b).1,
     Ev.readFd "weather_update_fd" :: (update_weather_info env b).2)
  | Wake.timeReady =>
    ((redraw b).1, Ev.readFd "time_update_fd" :: (redraw b).2)
  | Wake.closeReady =>
    ((close b).1, Ev.readFd "close_fd" :: (close b).2)

/-- The straight-line prefix of `main()` (lines 313-328) before the first
`epoll.poll()`: install the signal handler, create the epoll object and the
three eventfds, register the four descriptors, signal the weather-refresh
notifier once, set the running flag, start the ticker thread, enter the
loop. -/
def main_setup_events : List Ev :=
  [Ev.registerSignalHandler,
   Ev.epollCreate,
   Ev.createEventfd "weather_update_fd",
   Ev.createEventfd "time_update_fd",
   Ev.createEventfd "close_fd",
   Ev.epollRegister "display_fd",
   Ev.epollRegister "weather_update_fd",
   Ev.epollRegister "time_update_fd",
   Ev.epollRegister "close_fd",
   Ev.writeFd "weather_update_fd",
   Ev.setRunning,
   Ev.startThread,
   Ev.enterLoop]

/-- A session state as it stands once the initial configure handshake has
completed: default geometry 1000x200, initial buffer (id 1) attached, not
waiting for configure. -/
def resize_ready_state : State :=
  { wait_for_configure := false, buffer1 := some 1, next_buffer_id := 2,
    shm_size := 800000, cairo_w := 1000, cairo_h := 200,
    compositor_enabled := true, xdg_enabled := true, shm_enabled := true,
    weather_temperature := "0°F", weather_icon := "weather-icons/10n.png",
    running := true }

/-- A session state with credentials supplied, before any successful
weather refresh. -/
def weather_state0 : State :=
  { resize_ready_state with
    weather_api_key := some "KEY", weather_location_key := some "Denver" }

/-- A session state with neither API key nor location supplied. -/
def no_creds_state : State :=
  { resize_ready_state with
    weather_api_key := none, weather_location_key := none }

/-- Oracle for a fully successful refresh: the fetch parses to 42 degrees
with icon code 01d, the icon file is already cached and loads fine. -/
def env_success : WeatherEnv :=
  { fetch := Except.ok { main_temp := some 42, weather_icon := some "01d" },
    icon_cached := fun _ => true,
    icon_download := fun _ => Except.ok (),
    load_png := fun _ => Except.ok () }

/-- Oracle for a refresh whose JSON fetch and temperature parse succeed but
whose icon download fails. -/
def env_icon_fail : WeatherEnv :=
  { fetch := Except.ok { main_temp := some 70, weather_icon := some "01d" },
    icon_cached := fun _ => false,
    icon_download := fun _ => Except.error "icon download failed",
    load_png := fun _ => Except.ok () }

/-- A session state still waiting for the initial configure. -/
def waiting_state : State :=
  { resize_ready_state with wait_for_configure := true }

/-- C1: the claim says a toplevel-configure changing only one dimension is
acted upon; the code requires BOTH dimensions to differ (the `and` at line
84), so (800, 200) against target 1000x200 is silently dropped — no target
update, no buffer traffic — while (800, 150) takes the full resize path
(new 800*150*4-byte buffer, render, attach/damage/commit/flush). -/
theorem C1_single_dimension_resize_ignored :
  handle_xdg_toplevel_configure resize_ready_state 800 200 = (resize_ready_state, [])
  ∧ (handle_xdg_toplevel_configure resize_ready_state 800 150).2
    = [Ev.openAnonFile 480000, Ev.mmapFile 480000, Ev.createPool 480000,
       Ev.destroyBuffer 1, Ev.createBuf 2 800 150 3200, Ev.destroyPool, Ev.closeAnonFile,
       Ev.writeShm 480000, Ev.attach 2, Ev.damage 800 150, Ev.commit, Ev.flush] := by
  exact ⟨by decide, by decide⟩

/-- C2 counterexample: on the accepted resize (800, 150) from the default
1000x200 session, the old buffer (id 1) is destroyed at index 3 of the
handler trace, strictly before the new buffer is attached (index 8) — the
claimed allocate-new → attach-new → commit → destroy-old order is false. -/
theorem C2_destroy_precedes_attach_cex :
  (handle_xdg_toplevel_configure resize_ready_state 800 150).2.indexOf (Ev.destroyBuffer 1)
    < (handle_xdg_toplevel_configure resize_ready_state 800 150).2.indexOf (Ev.attach 2)
  ∧ (handle_xdg_toplevel_configure resize_ready_state 800 150).2.indexOf (Ev.attach 2)
    < (handle_xdg_toplevel_configure resize_ready_state 800 150).2.length := by
  exact ⟨by decide, by decide⟩

/-- C3 counterexample: a refresh whose fetch and temperature parse succeed
but whose icon download fails is caught and logged, yet it leaves the state
with the NEW temperature (70°F instead of the previous 0°F) and the stale
icon — the claim that any failed refresh leaves WeatherState completely
unchanged, and that no state ever mixes new temperature with stale icon,
is false. -/
theorem C3_partial_update_on_icon_failure_cex :
  (update_weather_info env_icon_fail weather_state0).1.weather_temperature = "70°F"
  ∧ weather_state0.weather_temperature = "0°F"
  ∧ (update_weather_info env_icon_fail weather_state0).1.weather_icon
      = weather_state0.weather_icon
  ∧ Ev.printMsg "Failed to update weather: icon download failed"
      ∈ (update_weather_info env_icon_fail weather_state0).2 := by
  exact ⟨by decide, by decide, by decide, by decide⟩

/-- C4: while `wait_for_configure` is true, `handle_xdg_toplevel_configure`
returns at once: the state (geometry target included) is unchanged and no
buffer, render, or protocol event is emitted. -/
theorem C4_toplevel_configure_ignored_while_waiting :
    ∀ (b : State) (width height : Int),
    b.wait_for_configure = true →
    handle_xdg_toplevel_configure b width height = (b, []) := by
  intro b width height h
  simp [handle_xdg_toplevel_configure, h]

/-- Witness for C4 at a concrete waiting state and a (800, 150) event. -/
theorem C4_toplevel_configure_ignored_while_waiting_witness :
  waiting_state.wait_for_configure = true
  ∧ handle_xdg_toplevel_configure waiting_state 800 150 = (waiting_state, []) :=
  ⟨rfl, C4_toplevel_configure_ignored_while_waiting waiting_state 800 150 rfl⟩

/-- C5: every shutdown trigger — fatal dispatch result -1, the close
notifier, the toplevel close event — runs the same `close` teardown, whose
trace is exactly: disconnect (closing the connection descriptor), close the
three eventfds, clear the running flag, join the ticker thread, exit 0; so
all four registered descriptors are closed and the exit status is 0. -/
theorem C5_uniform_teardown : ∀ (env : WeatherEnv) (b : State),
  main_loop_step env b (Wake.displayReady (-1)) = close b
  ∧ main_loop_step env b Wake.closeReady
      = ((close b).1, Ev.readFd "close_fd" :: (close b).2)
  ∧ handle_xdg_surface_close b = close b
  ∧ (close b).1.running = false
  ∧ (close b).2 = teardown_events
  ∧ fds_closed teardown_events
      = ["display_fd", "weather_update_fd", "time_update_fd", "close_fd"]
  ∧ teardown_events.indexOf Ev.disconnect = 0
  ∧ teardown_events.indexOf (Ev.closeFd "weather_update_fd") = 1
  ∧ teardown_events.indexOf (Ev.closeFd "time_update_fd") = 2
  ∧ teardown_events.indexOf (Ev.closeFd "close_fd") = 3
  ∧ teardown_events.indexOf Ev.clearRunning = 4
  ∧ teardown_events.indexOf Ev.joinThread = 5
  ∧ teardown_events.getLast? = some (Ev.exitProcess 0) := by
  intro env b
  refine ⟨?_, rfl, rfl, rfl, rfl, by decide, by decide, by decide, by decide,
          by decide, by decide, by decide, by decide⟩
  simp [main_loop_step]

/-- C7: the surface-configure handler echoes exactly the serial it
received in `ack_configure`, then commits and flushes, and leaves the
state with `wait_for_configure` cleared (the condition of the
dispatch-until-configured loop at lines 251-252). -/
theorem C7_ack_echoes_exact_serial : ∀ (b : State) (serial : Nat),
  handle_xdg_surface_configure b serial
    = ({ b with wait_for_configure := false },
       [Ev.ackConfigure serial, Ev.commit, Ev.flush])
  ∧ (handle_xdg_surface_configure b serial).1.wait_for_configure = false := by
  intro b serial
  exact ⟨rfl, rfl⟩

/-- C9 counterexample: with neither API key nor location, the refresh
handler prints ONLY the api-key notice and returns: the location notice is
never printed, the location is NOT set to the documented default, and
nothing else changes — the claim that both notices are printed and the
default location installed is false.  (The temperature does stay at its
default and no request is made, as the single-print trace shows.) -/
theorem C9_only_apikey_notice_cex :
  (update_weather_info env_success no_creds_state).2
    = [Ev.printMsg "Set OpenWeatherMap api key to enable weather updates."]
  ∧ (update_weather_info env_success no_creds_state).1.weather_location_key = none
  ∧ (update_weather_info env_success no_creds_state).1.weather_temperature = "0°F" := by
  exact ⟨by decide, by decide, by decide⟩

/-- C10: `main()` signals the weather-refresh eventfd exactly once, and it
does so before starting the ticker thread and before entering the epoll
loop; a wake-up of that descriptor dispatches exactly one
`update_weather_info` call (after the 8-byte drain read). -/
theorem C10_immediate_weather_refresh :
  main_setup_events.indexOf (Ev.writeFd "weather_update_fd")
      < main_setup_events.indexOf Ev.startThread
  ∧ main_setup_events.indexOf Ev.startThread < main_setup_events.indexOf Ev.enterLoop
  ∧ main_setup_events.count (Ev.writeFd "weather_update_fd") = 1
  ∧ ∀ (env : WeatherEnv) (b : State),
      main_loop_step env b Wake.weatherReady
        = ((update_weather_info env b).1,
           Ev.readFd "weather_update_fd" :: (update_weather_info env b).2) := by
  exact ⟨by decide, by decide, by decide, fun env b => rfl⟩

/-- C2 amended: for every accepted resize from a state holding a buffer,
the handler trace is exactly open/mmap/pool-create of width*height*4 bytes,
destruction of the OLD buffer, creation of the new buffer (stride
width*4), pool teardown, then render-write, attach of the new buffer,
damage, commit, flush — i.e. the old buffer is destroyed exactly once, but
BEFORE the replacement is created and attached, and afterwards the active
buffer is the new one with exactly width*height*4 bytes. -/
theorem C2_resize_buffer_lifecycle : ∀ (b : State) (width height : Int) (old : Nat),
  b.wait_for_configure = false →
  width ≠ 0 → height ≠ 0 → b.window_width ≠ width → b.window_height ≠ height →
  b.buffer1 = some old →
  (handle_xdg_toplevel_configure b width height).2
    = [Ev.openAnonFile (width * height * 4), Ev.mmapFile (width * height * 4),
       Ev.createPool (width * height * 4),
       Ev.destroyBuffer old,
       Ev.createBuf b.next_buffer_id width height (width * 4),
       Ev.destroyPool, Ev.closeAnonFile,
       Ev.writeShm (width * height * 4),
       Ev.attach b.next_buffer_id,
       Ev.damage width height, Ev.commit, Ev.flush]
  ∧ (handle_xdg_toplevel_configure b width height).2.count (Ev.destroyBuffer old) = 1
  ∧ (handle_xdg_toplevel_configure b width height).1.buffer1 = some b.next_buffer_id
  ∧ (handle_xdg_toplevel_configure b width height).1.shm_size = width * height * 4
  ∧ (handle_xdg_toplevel_configure b width height).1.window_width = width
  ∧ (handle_xdg_toplevel_configure b width height).1.window_height = height := by
  intro b width height old hwait hw hh hww hwh hb
  have hcond : width ≠ 0 ∧ height ≠ 0 ∧ b.window_width ≠ width ∧ b.window_height ≠ height :=
    ⟨hw, hh, hww, hwh⟩
  have htr : (handle_xdg_toplevel_configure b width height).2
    = [Ev.openAnonFile (width * height * 4), Ev.mmapFile (width * height * 4),
       Ev.createPool (width * height * 4),
       Ev.destroyBuffer old,
       Ev.createBuf b.next_buffer_id width height (width * 4),
       Ev.destroyPool, Ev.closeAnonFile,
       Ev.writeShm (width * height * 4),
       Ev.attach b.next_buffer_id,
       Ev.damage width height, Ev.commit, Ev.flush] := by
    simp [handle_xdg_toplevel_configure, hwait, hcond, create_buffer, redraw, hb]
  refine ⟨htr, ?_, ?_, ?_, ?_, ?_⟩
  · rw [htr]
    simp [List.count_cons]
  all_goals
    simp [handle_xdg_toplevel_configure, hwait, hcond, create_buffer, redraw, hb]

/-- Witness for C2 amended at the default 1000x200 session resized to
(800, 150): the old buffer (id 1) is destroyed exactly once and the
resulting shared-memory buffer holds 800*150*4 bytes. -/
theorem C2_resize_buffer_lifecycle_witness :
  (handle_xdg_toplevel_configure resize_ready_state 800 150).2.count (Ev.destroyBuffer 1) = 1
  ∧ (handle_xdg_toplevel_configure resize_ready_state 800 150).1.shm_size = 800 * 150 * 4 :=
  ⟨(C2_resize_buffer_lifecycle resize_ready_state 800 150 1 rfl (by decide) (by decide)
      (by decide) (by decide) rfl).2.1,
   (C2_resize_buffer_lifecycle resize_ready_state 800 150 1 rfl (by decide) (by decide)
      (by decide) (by decide) rfl).2.2.2.1⟩

/-- C3 amended: with credentials present, a refresh that fails BEFORE the
temperature assignment (fetch/parse error, or missing temperature field)
is caught, logged, and leaves the state unchanged; a fully successful
refresh updates temperature and icon together; but a refresh that fails
AFTER the temperature assignment (missing icon field, or icon
download/load failure) is caught and logged with the temperature already
overwritten and the previous icon retained — updates are not atomic. -/
theorem C3_refresh_failure_granularity : ∀ (env : WeatherEnv) (b : State) (k l : String),
  b.weather_api_key = some k →
  b.weather_location_key = some l →
  ((∀ e, env.fetch = Except.error e →
      (update_weather_info env b).1 = b
      ∧ Ev.printMsg ("Failed to update weather: " ++ e) ∈ (update_weather_info env b).2)
   ∧ (∀ wd, env.fetch = Except.ok wd → wd.main_temp = none →
      (update_weather_info env b).1 = b)
   ∧ (∀ wd t code p, env.fetch = Except.ok wd → wd.main_temp = some t →
        wd.weather_icon = some code → icon_step env code = Except.ok p →
        (update_weather_info env b).1.weather_temperature
          = toString t ++ (if b.weather_metric_units then "°C" else "°F")
        ∧ (update_weather_info env b).1.weather_icon = p)
   ∧ (∀ wd t code e, env.fetch = Except.ok wd → wd.main_temp = some t →
        wd.weather_icon = some code → icon_step env code = Except.error e →
        (update_weather_info env b).1.weather_temperature
          = toString t ++ (if b.weather_metric_units then "°C" else "°F")
        ∧ (update_weather_info env b).1.weather_icon = b.weather_icon
        ∧ Ev.printMsg ("Failed to update weather: " ++ e) ∈ (update_weather_info env b).2)
   ∧ (∀ wd t, env.fetch = Except.ok wd → wd.main_temp = some t →
        wd.weather_icon = none →
        (update_weather_info env b).1.weather_temperature
          = toString t ++ (if b.weather_metric_units then "°C" else "°F")
        ∧ (update_weather_info env b).1.weather_icon = b.weather_icon)) := by
  intro env b k l hk hl
  refine ⟨?_, ?_, ?_, ?_, ?_⟩
  · intro e hf
    simp [update_weather_info, hk, hl, hf]
  · intro wd hf ht
    simp [update_weather_info, hk, hl, hf, ht]
  · intro wd t code p hf ht hi hs
    simp [update_weather_info, hk, hl, hf, ht, hi, hs]
  · intro wd t code e hf ht hi hs
    simp [update_weather_info, hk, hl, hf, ht, hi, hs]
  · intro wd t hf ht hi
    simp [update_weather_info, hk, hl, hf, ht, hi]

/-- Witness for C3 amended: the fully successful refresh of `env_success`
on `weather_state0` sets temperature 42°F and icon weather-icons/01d.png
together. -/
theorem C3_refresh_failure_granularity_witness :
  (update_weather_info env_success weather_state0).1.weather_temperature
    = toString (42 : Int) ++ (if weather_state0.weather_metric_units then "°C" else "°F")
  ∧ (update_weather_info env_success weather_state0).1.weather_icon
    = "weather-icons/01d.png" :=
  (C3_refresh_failure_granularity env_success weather_state0 "KEY" "Denver" rfl rfl).2.2.1
    { main_temp := some 42, weather_icon := some "01d" } 42 "01d" "weather-icons/01d.png"
    rfl rfl rfl rfl

/-- C9 amended: when no API key is supplied the refresh handler prints the
api-key notice alone and returns immediately — the state (location and
temperature included) is untouched and no request is made; the location
notice and the Colorado%20Springs default are applied only on invocations
where an API key IS present but the location is absent. -/
theorem C9_refresh_without_credentials : ∀ (env : WeatherEnv) (b : State),
  (b.weather_api_key = none →
     update_weather_info env b
       = (b, [Ev.printMsg "Set OpenWeatherMap api key to enable weather updates."]))
  ∧ (∀ k, b.weather_api_key = some k → b.weather_location_key = none →
       (update_weather_info env b).1.weather_location_key = some "Colorado%20Springs"
       ∧ Ev.printMsg "Set OpenWeatherMap location to get localized weather updates."
           ∈ (update_weather_info env b).2) := by
  intro env b
  constructor
  · intro h
    simp [update_weather_info, h]
  · intro k hk hl
    rcases hf : env.fetch with e | wd
    · simp [update_weather_info, hk, hl, hf]
    · rcases ht : wd.main_temp with _ | t
      · simp [update_weather_info, hk, hl, hf, ht]
      · rcases hi : wd.weather_icon with _ | code
        · simp [update_weather_info, hk, hl, hf, ht, hi]
        · rcases hs : icon_step env code with e | p
          · simp [update_weather_info, hk, hl, hf, ht, hi, hs]
          · simp [update_weather_info, hk, hl, hf, ht, hi, hs]

/-- Witness for C9 amended: at `no_creds_state` (no key, no location) the
handler is the identity on the state and prints exactly the api-key
notice. -/
theorem C9_refresh_without_credentials_witness :
  update_weather_info env_success no_creds_state
    = (no_creds_state, [Ev.printMsg "Set OpenWeatherMap api key to enable weather updates."]) :=
  (C9_refresh_without_credentials env_success no_creds_state).1 rfl

/-- One registry event toggles `compositor_enabled` exactly when the
advertised interface is wl_compositor. -/
theorem registry_step_compositor (b : State) (g : String) :
  (handle_registry_global b g).compositor_enabled
    = (b.compositor_enabled || decide (g = "wl_compositor")) := by
  unfold handle_registry_global
  by_cases h1 : g = "wl_compositor"
  · simp [h1]
  · by_cases h2 : g = "xdg_wm_base" <;> by_cases h3 : g = "wl_shm" <;> simp [h1, h2, h3]

/-- One registry event toggles `xdg_enabled` exactly when the advertised
interface is xdg_wm_base. -/
theorem registry_step_xdg (b : State) (g : String) :
  (handle_registry_global b g).xdg_enabled
    = (b.xdg_enabled || decide (g = "xdg_wm_base")) := by
  unfold handle_registry_global
  by_cases h1 : g = "wl_compositor"
  · simp [h1]
  · by_cases h2 : g = "xdg_wm_base" <;> by_cases h3 : g = "wl_shm" <;> simp [h1, h2, h3]

/-- One registry event toggles `shm_enabled` exactly when the advertised
interface is wl_shm. -/
theorem registry_step_shm (b : State) (g : String) :
  (handle_registry_global b g).shm_enabled
    = (b.shm_enabled || decide (g = "wl_shm")) := by
  unfold handle_registry_global
  by_cases h1 : g = "wl_compositor"
  · simp [h1]
  · by_cases h2 : g = "xdg_wm_base" <;> by_cases h3 : g = "wl_shm" <;> simp [h1, h2, h3]

/-- After dispatching the whole advertisement list, `compositor_enabled`
holds iff it held before or wl_compositor was advertised. -/
theorem registry_fold_compositor : ∀ (gs : List String) (b : State),
  (gs.foldl handle_registry_global b).compositor_enabled
    = (b.compositor_enabled || decide ("wl_compositor" ∈ gs)) := by
  intro gs
  induction gs with
  | nil => intro b; simp
  | cons g gs ih =>
    intro b
    rw [List.foldl_cons, ih, registry_step_compositor]
    by_cases h : g = "wl_compositor" <;> by_cases hm : "wl_compositor" ∈ gs <;>
      simp [h, hm, List.mem_cons, eq_comm]

/-- After dispatching the whole advertisement list, `xdg_enabled` holds
iff it held before or xdg_wm_base was advertised. -/
theorem registry_fold_xdg : ∀ (gs : List String) (b : State),
  (gs.foldl handle_registry_global b).xdg_enabled
    = (b.xdg_enabled || decide ("xdg_wm_base" ∈ gs)) := by
  intro gs
  induction gs with
  | nil => intro b; simp
  | cons g gs ih =>
    intro b
    rw [List.foldl_cons, ih, registry_step_xdg]
    by_cases h : g = "xdg_wm_base" <;> by_cases hm : "xdg_wm_base" ∈ gs <;>
      simp [h, hm, List.mem_cons, eq_comm]

/-- After dispatching the whole advertisement list, `shm_enabled` holds
iff it held before or wl_shm was advertised. -/
theorem registry_fold_shm : ∀ (gs : List String) (b : State),
  (gs.foldl handle_registry_global b).shm_enabled
    = (b.shm_enabled || decide ("wl_shm" ∈ gs)) := by
  intro gs
  induction gs with
  | nil => intro b; simp
  | cons g gs ih =>
    intro b
    rw [List.foldl_cons, ih, registry_step_shm]
    by_cases h : g = "wl_shm" <;> by_cases hm : "wl_shm" ∈ gs <;>
      simp [h, hm, List.mem_cons, eq_comm]

/-- Everything `backdrop_create` emits before the capability checks is a
print, the connect, or the roundtrip. -/
theorem mem_pre_check_trace : ∀ (args : Args) (e : Ev),
  e ∈ cli_notice_events args
      ++ (if args.metric then
            [Ev.printMsg "Enabling metric mode (temperature units in celsius)."] else [])
      ++ [Ev.connectDisplay, Ev.roundtrip] →
  (∃ m, e = Ev.printMsg m) ∨ e = Ev.connectDisplay ∨ e = Ev.roundtrip := by
  intro args e he
  rcases List.mem_append.mp he with h | h
  · rcases List.mem_append.mp h with h | h
    · unfold cli_notice_events at h
      rcases List.mem_append.mp h with h | h
      · revert h
        split <;> intro h <;> simp at h
        exact Or.inl ⟨_, h⟩
      · revert h
        split <;> intro h <;> simp at h
        exact Or.inl ⟨_, h⟩
    · revert h
      split <;> intro h <;> simp at h
      exact Or.inl ⟨_, h⟩
  · simp at h
    rcases h with h | h
    · exact Or.inr (Or.inl h)
    · exact Or.inr (Or.inr h)

/-- Everything printed by the CLI-notice prefix is a print. -/
theorem cli_notice_events_prints : ∀ (args : Args) (e : Ev),
  e ∈ cli_notice_events args → ∃ m, e = Ev.printMsg m := by
  intro args e h
  unfold cli_notice_events at h
  rcases List.mem_append.mp h with h | h <;>
  · revert h
    split <;> intro h <;> simp at h
    exact ⟨_, h⟩

/-- An invocation with every flag at its default. -/
def default_args : Args := {}

/-- C8: whenever `--interval` parses to an integer below 1, the program
prints the interval-validation message and exits with status -1 while the
emitted trace is still only the CLI notices — in particular the display
was never connected and no surface was created. -/
theorem C8_invalid_interval_exits_before_connect :
    ∀ (args : Args) (i : Int) (globals : List String),
    args.interval = some i → i < 1 →
    (backdrop_create args globals).1 = none
    ∧ (backdrop_create args globals).2
        = cli_notice_events args
          ++ [Ev.printMsg "Weather update interval must be greater or equal to 1 minute.",
              Ev.exitProcess (-1)]
    ∧ Ev.exitProcess (-1) ∈ (backdrop_create args globals).2
    ∧ Ev.connectDisplay ∉ (backdrop_create args globals).2
    ∧ Ev.createSurface ∉ (backdrop_create args globals).2 := by
  intro args i globals hi hlt
  have hred : backdrop_create args globals
      = (none, cli_notice_events args
          ++ [Ev.printMsg "Weather update interval must be greater or equal to 1 minute.",
              Ev.exitProcess (-1)]) := by
    simp [backdrop_create, hi, hlt]
  rw [hred]
  refine ⟨rfl, rfl, by simp, ?_, ?_⟩ <;>
  · intro hmem
    rcases List.mem_append.mp hmem with h | h
    · rcases cli_notice_events_prints args _ h with ⟨m, hm⟩
      simp at hm
    · simp at h

/-- Witness for C8 at `--interval 0` with all capabilities advertised:
startup aborts and the display is never connected. -/
theorem C8_invalid_interval_exits_before_connect_witness :
  (backdrop_create { interval := some 0 } ["wl_compositor", "xdg_wm_base", "wl_shm"]).1 = none
  ∧ Ev.connectDisplay
      ∉ (backdrop_create { interval := some 0 } ["wl_compositor", "xdg_wm_base", "wl_shm"]).2 :=
  ⟨(C8_invalid_interval_exits_before_connect { interval := some 0 } 0
      ["wl_compositor", "xdg_wm_base", "wl_shm"] rfl (by decide)).1,
   (C8_invalid_interval_exits_before_connect { interval := some 0 } 0
      ["wl_compositor", "xdg_wm_base", "wl_shm"] rfl (by decide)).2.2.2.1⟩

/-- C6: after the discovery roundtrip, a missing wl_compositor,
xdg_wm_base, or wl_shm capability makes startup print the message naming
the missing protocol, disconnect, and exit -1, with no surface and no
buffer ever created; when all three are advertised, startup proceeds and
creates the surface. -/
theorem C6_capability_gate : ∀ (args : Args) (globals : List String),
  args.interval = none →
  (("wl_compositor" ∉ globals →
      (backdrop_create args globals).1 = none
      ∧ Ev.printMsg "Protocol wl_compositor not advertised by compositor. Cannot continue."
          ∈ (backdrop_create args globals).2
      ∧ Ev.disconnect ∈ (backdrop_create args globals).2
      ∧ Ev.exitProcess (-1) ∈ (backdrop_create args globals).2
      ∧ Ev.createSurface ∉ (backdrop_create args globals).2
      ∧ (∀ id w h s, Ev.createBuf id w h s ∉ (backdrop_create args globals).2))
   ∧ ("wl_compositor" ∈ globals → "xdg_wm_base" ∉ globals →
      (backdrop_create args globals).1 = none
      ∧ Ev.printMsg "Protocol xdg_shell not advertised by compositor. Cannot continue."
          ∈ (backdrop_create args globals).2
      ∧ Ev.disconnect ∈ (backdrop_create args globals).2
      ∧ Ev.exitProcess (-1) ∈ (backdrop_create args globals).2
      ∧ Ev.createSurface ∉ (backdrop_create args globals).2
      ∧ (∀ id w h s, Ev.createBuf id w h s ∉ (backdrop_create args globals).2))
   ∧ ("wl_compositor" ∈ globals → "xdg_wm_base" ∈ globals → "wl_shm" ∉ globals →
      (backdrop_create args globals).1 = none
      ∧ Ev.printMsg "Protocol wl_shm not advertised by compositor. Cannot continue."
          ∈ (backdrop_create args globals).2
      ∧ Ev.disconnect ∈ (backdrop_create args globals).2
      ∧ Ev.exitProcess (-1) ∈ (backdrop_create args globals).2
      ∧ Ev.createSurface ∉ (backdrop_create args globals).2
      ∧ (∀ id w h s, Ev.createBuf id w h s ∉ (backdrop_create args globals).2))
   ∧ ("wl_compositor" ∈ globals → "xdg_wm_base" ∈ globals → "wl_shm" ∈ globals →
      (∃ st, (backdrop_create args globals).1 = some st)
      ∧ Ev.createSurface ∈ (backdrop_create args globals).2)) := by
  intro args globals hint
  refine ⟨?_, ?_, ?_, ?_⟩
  · intro hc
    simp only [backdrop_create, hint]
    simp only [backdrop_create_rest]
    rw [registry_fold_compositor]
    simp only [hc, decide_False, Bool.or_false]
    refine ⟨rfl, by simp, by simp, by simp, ?_, ?_⟩
    · intro hmem
      rcases List.mem_append.mp hmem with h | h
      · rcases mem_pre_check_trace args _ h with ⟨m, hm⟩ | hm | hm <;> simp at hm
      · simp at h
    · intro id w h s hmem
      rcases List.mem_append.mp hmem with h2 | h2
      · rcases mem_pre_check_trace args _ h2 with ⟨m, hm⟩ | hm | hm <;> simp at hm
      · simp at h2
  · intro hc hx
    simp only [backdrop_create, hint]
    simp only [backdrop_create_rest]
    rw [registry_fold_compositor, registry_fold_xdg]
    simp only [hc, hx, decide_False, decide_True, Bool.or_false, Bool.or_true]
    refine ⟨rfl, by simp, by simp, by simp, ?_, ?_⟩
    · intro hmem
      rcases List.mem_append.mp hmem with h | h
      · rcases mem_pre_check_trace args _ h with ⟨m, hm⟩ | hm | hm <;> simp at hm
      · simp at h
    · intro id w h s hmem
      rcases List.mem_append.mp hmem with h2 | h2
      · rcases mem_pre_check_trace args _ h2 with ⟨m, hm⟩ | hm | hm <;> simp at hm
      · simp at h2
  · intro hc hx hs
    simp only [backdrop_create, hint]
    simp only [backdrop_create_rest]
    rw [registry_fold_compositor, registry_fold_xdg, registry_fold_shm]
    simp only [hc, hx, hs, decide_False, decide_True, Bool.or_false, Bool.or_true]
    refine ⟨rfl, by simp, by simp, by simp, ?_, ?_⟩
    · intro hmem
      rcases List.mem_append.mp hmem with h | h
      · rcases mem_pre_check_trace args _ h with ⟨m, hm⟩ | hm | hm <;> simp at hm
      · simp at h
    · intro id w h s hmem
      rcases List.mem_append.mp hmem with h2 | h2
      · rcases mem_pre_check_trace args _ h2 with ⟨m, hm⟩ | hm | hm <;> simp at hm
      · simp at h2
  · intro hc hx hs
    simp only [backdrop_create, hint]
    simp only [backdrop_create_rest]
    rw [registry_fold_compositor, registry_fold_xdg, registry_fold_shm]
    simp only [hc, hx, hs, decide_True, Bool.or_true]
    exact ⟨⟨_, rfl⟩, by simp⟩

/-- Witness for C6: with only wl_shm advertised, startup aborts with the
wl_compositor message; with all three advertised, a surface is created. -/
theorem C6_capability_gate_witness :
  ((backdrop_create default_args ["wl_shm"]).1 = none
    ∧ Ev.printMsg "Protocol wl_compositor not advertised by compositor. Cannot continue."
        ∈ (backdrop_create default_args ["wl_shm"]).2)
  ∧ Ev.createSurface
      ∈ (backdrop_create default_args ["wl_compositor", "xdg_wm_base", "wl_shm"]).2 :=
  ⟨⟨((C6_capability_gate default_args ["wl_shm"] rfl).1 (by decide)).1,
    ((C6_capability_gate default_args ["wl_shm"] rfl).1 (by decide)).2.1⟩,
   ((C6_capability_gate default_args ["wl_compositor", "xdg_wm_base", "wl_shm"] rfl).2.2.2
      (by decide) (by decide) (by decide)).2⟩

end WlBackdrop
